import Mathlib

/-!
Verification development for the Shade JIT emitter (src/emitter.cpp).

The emitter state and its operations are shallowly embedded: machine
addresses and offsets are `Nat`, the chunk of heap handed out by `malloc`
is modelled by a monotone bump allocator (`nextAlloc`, kept nonzero since
the source never checks for allocation failure), `DenseMap`/`ValueMap`
containers are association lists with first-match lookup (an assignment is
a cons at the front, which is lookup-equivalent to overwrite), fatal exits
(`report_fatal_error`, `abort`, `llvm_unreachable`, failed `assert`) are
`Except`/`Option` failures, and symbol names are numbered.  Memory
contents (the emitted bytes themselves, the zero fill of global storage)
are not modelled; every address computation is.
-/

namespace Shade

/-- Fatal exits of the emitter, one constructor per distinct fatal site in
the source (plus the assertion failures that guard lookups). -/
inductive EmitError where
  | externalGlobal
  | machineCPE
  | abortCalled
  | mbbNotEmitted
  | labelNotEmitted
  | invalidConstantPoolIndex
  | invalidJumpTableIndex
  | globalNotAllocated
  | unsupportedJTKind
  | crossJIT
deriving DecidableEq, Repr

/-- One constant-pool entry: its type's alloc size, its alignment, and the
flag `isMachineConstantPoolEntry` (emitter.cpp line 382). -/
structure CPEntry where
  size : Nat
  alignment : Nat
  isMachineCPE : Bool
deriving DecidableEq, Repr

/-- One `MachineJumpTableEntry`: the list of destination basic blocks,
each given by its MBB number. -/
structure MachineJumpTableEntry where
  mbbs : List Nat
deriving DecidableEq, Repr

/-- The jump-table entry kinds of `MachineJumpTableInfo`. -/
inductive JTEntryKind where
  | blockAddress
  | gprel64BlockAddress
  | gprel32BlockAddress
  | labelDifference32
  | custom32
  | inlined
deriving DecidableEq, Repr

/-- A function's `MachineJumpTableInfo`: entry kind plus the jump tables. -/
structure MachineJumpTableInfo where
  entryKind : JTEntryKind
  jumpTables : List MachineJumpTableEntry
deriving DecidableEq, Repr

/-- A `GlobalVariable` as the emitter sees it: an identity, the two
declaration-likeness flags tested at emitter.cpp line 116, the alloc size
and preferred alignment the target data supplies, and the thread-local
flag tested at line 133. -/
structure GlobalVariable where
  gid : Nat
  isDeclFlag : Bool
  hasAvailableExternallyLinkage : Bool
  allocSize : Nat
  prefAlignment : Nat
  isThreadLocal : Bool
deriving DecidableEq, Repr

/-- A `GlobalValue` as dispatched by `getPointerToGlobal` (lines 154-179):
a global variable, an alias (already resolved to the ultimate global's
identity, as `resolveAliasedGlobal` does), or a function. -/
inductive GlobalValue where
  | var (v : GlobalVariable)
  | aliasTo (gid : Nat)
  | func (fid : Nat)
deriving DecidableEq, Repr

/-- The six relocation target kinds dispatched in `resolveRelocations`
(lines 292-311).  External symbol names are numbered. -/
inductive RelocKind where
  | externalSymbol (name : Nat)
  | globalValue (gv : GlobalValue)
  | indirectSymbol (gv : GlobalValue)
  | basicBlock (mbbNumber : Nat)
  | constantPoolIndex (i : Nat)
  | jumpTableIndex (i : Nat)
deriving DecidableEq, Repr

/-- A `MachineRelocation`: byte offset in the function's buffer, target
kind, the `letTargetResolve` and `mayNeedFarStub` flags, and the result
pointer written by `setResultPointer` during resolution. -/
structure MachineRelocation where
  machineCodeOffset : Nat
  kind : RelocKind
  letTargetResolve : Bool
  mayNeedFarStub : Bool
  resultPointer : Option Nat
deriving DecidableEq, Repr

/-- An `EmittedCode` record (`EmittedFunctions` map value): owning
function, buffer start (`FunctionBody`), code start (`Code`), final
`Size`, and the recorded relocations. -/
structure EmittedCode where
  functionId : Nat
  functionBody : Nat
  codeStart : Nat
  size : Nat
  relocations : List MachineRelocation
deriving DecidableEq, Repr

/-- The per-function input of `startFunction`/`finishFunction`: the
function's identity and alignment, its constant pool (entries plus
`getConstantPoolAlignment`), and its optional jump-table info. -/
structure MachineFunctionData where
  fnId : Nat
  fnAlignment : Nat
  constants : List CPEntry
  cpAlignment : Nat
  jumpTableInfo : Option MachineJumpTableInfo
deriving DecidableEq, Repr

/-- The mutable state of `Shade::Emitter`.  `bufferBegin = 0` plays the
role of the null `BufferBegin` pointer (no active buffer).  `nextAlloc`
models `malloc`: each allocation returns the current value and advances
it; it is kept nonzero because the source never handles a null return. -/
structure EmitterState where
  sizeEstimate : Nat
  bufferBegin : Nat
  bufferEnd : Nat
  curBufferPtr : Nat
  nextAlloc : Nat
  mbbLocations : List Nat
  labelLocations : List (Nat × Nat)
  constPoolAddresses : List Nat
  constantPool : List CPEntry
  jumpTable : Option MachineJumpTableInfo
  jumpTableBase : Nat
  emittedFunctions : List (Nat × EmittedCode)
  currentFn : Nat
  globalOffsets : List (Nat × Nat)
  globalsSize : Nat
  externalSymbols : List (Nat × Nat)
  hasCustomJumpTables : Bool
  ptrSize : Nat
deriving DecidableEq, Repr

/-- First-match lookup in an association list (the lookup of `DenseMap`,
`ValueMap` and the global-offset map). -/
def lookupNat (m : List (Nat × Nat)) (k : Nat) : Option Nat :=
  match m with
  | [] => none
  | (a, b) :: rest => if a = k then some b else lookupNat rest k

/-- First-match lookup of an `EmittedCode` by function identity. -/
def lookupCode (m : List (Nat × EmittedCode)) (k : Nat) : Option EmittedCode :=
  match m with
  | [] => none
  | (a, b) :: rest => if a = k then some b else lookupCode rest k

/-- Erase a function's entry (`EmittedFunctions.erase`). -/
def eraseCode (m : List (Nat × EmittedCode)) (k : Nat) : List (Nat × EmittedCode) :=
  m.filter (fun p => p.1 != k)

/-- LLVM `RoundUpToAlignment(Value, Align) = ((Value + Align - 1) / Align) * Align`. -/
def roundUpToAlignment (value align : Nat) : Nat :=
  (value + align - 1) / align * align

/-- Round `x` down to a multiple of `align`: the value of `x & ~(align-1)`
for the power-of-two alignments the source works with. -/
def maskDown (x align : Nat) : Nat :=
  x - x % align

/-- The constant-pool alignment step `(Offset + AlignMask) & ~AlignMask`
with `AlignMask = alignment - 1` (lines 200-201 and 377-378). -/
def cpAlignUp (offset align : Nat) : Nat :=
  maskDown (offset + (align - 1)) align

/-- The tagged pseudo-address handed out for a global arena offset:
`(void*)(offset | 0xDA000000)` (lines 113, 138, 146). -/
def taggedGlobalAddress (offset : Nat) : Nat :=
  offset ||| 0xDA000000

/-- Offset recovery as the specification describes it: strip the marker
bits, keeping the low 24 bits of the tagged address.  This definition
follows the spec's words, for comparison with `taggedGlobalAddress`. -/
def strippedOffset (addr : Nat) : Nat :=
  addr &&& 0xFFFFFF

/-- `getCurrentPCValue` of the code emitter: the current write cursor. -/
def getCurrentPCValue (σ : EmitterState) : Nat :=
  σ.curBufferPtr

/-- Modelled from the spec: `JITCodeEmitter::emitAlignment` of the LLVM
base class (not under src/) rounds the cursor up to the alignment,
clamped to the buffer end. -/
def emitAlignment (σ : EmitterState) (alignment : Nat) : EmitterState :=
  let alignment := if alignment = 0 then 1 else alignment
  { σ with curBufferPtr := min (roundUpToAlignment σ.curBufferPtr alignment) σ.bufferEnd }

/-- Modelled from the spec: emitting `n` instruction bytes through the
LLVM base class advances the cursor one byte at a time, stopping at the
buffer end (the out-of-space condition detected by `finishFunction`). -/
def emitBytes (σ : EmitterState) (n : Nat) : EmitterState :=
  { σ with curBufferPtr := min (σ.curBufferPtr + n) σ.bufferEnd }

/-- `Emitter::allocateSpace` (lines 347-357).  With an active buffer it
defers to the base-class bump allocation (modelled from the spec: align
the cursor, carve `size` bytes, report failure as a null result when the
buffer is exhausted); otherwise `memAllocateSpace` mallocs a fresh block
that becomes the active buffer. -/
def allocateSpace (σ : EmitterState) (size alignment : Nat) : EmitterState × Nat :=
  if σ.bufferBegin ≠ 0 then
    let σ₁ := emitAlignment σ alignment
    let result := σ₁.curBufferPtr
    let cur := σ₁.curBufferPtr + size
    if σ₁.bufferEnd ≤ cur then ({ σ₁ with curBufferPtr := σ₁.bufferEnd }, 0)
    else ({ σ₁ with curBufferPtr := cur }, result)
  else
    let base := σ.nextAlloc
    ({ σ with bufferBegin := base, curBufferPtr := base, bufferEnd := base + size,
              nextAlloc := σ.nextAlloc + size }, base)

/-- `Emitter::startFunctionBody` (lines 514-522): a zero requested size
becomes the 0x1000 default, then `malloc`.  Returns the new state, the
block base, and the updated (by-reference) actual size. -/
def startFunctionBody (σ : EmitterState) (actualSize : Nat) : EmitterState × Nat × Nat :=
  let actualSize := if actualSize = 0 then 0x1000 else actualSize
  let base := σ.nextAlloc
  ({ σ with nextAlloc := σ.nextAlloc + actualSize }, base, actualSize)

/-- SmallVector `resize` to length `n`, value-initialising new slots. -/
def listResize (l : List Nat) (n : Nat) : List Nat :=
  if l.length < n then l ++ List.replicate (n - l.length) 0 else l.take n

/-- `Emitter::StartMachineBasicBlock` (lines 78-86): grow `MBBLocations`
to `(number+1)*2` if needed and record the current PC for the block. -/
def StartMachineBasicBlock (σ : EmitterState) (mbbNumber : Nat) : EmitterState :=
  let locs :=
    if σ.mbbLocations.length ≤ mbbNumber then listResize σ.mbbLocations ((mbbNumber + 1) * 2)
    else σ.mbbLocations
  { σ with mbbLocations := locs.set mbbNumber (getCurrentPCValue σ) }

/-- `Emitter::getMachineBasicBlockAddress` (lines 88-92): asserts the
block was emitted (slot exists and is nonzero), then reads it. -/
def getMachineBasicBlockAddress (σ : EmitterState) (n : Nat) : Option Nat :=
  if n < σ.mbbLocations.length ∧ σ.mbbLocations.getD n 0 ≠ 0 then
    some (σ.mbbLocations.getD n 0)
  else none

/-- `Emitter::emitLabel` (lines 94-96): record the current PC for the
label (map overwrite, modelled as cons with first-match lookup). -/
def emitLabel (σ : EmitterState) (label : Nat) : EmitterState :=
  { σ with labelLocations := (label, getCurrentPCValue σ) :: σ.labelLocations }

/-- `Emitter::getLabelAddress` (lines 102-105): asserts the label was
emitted, then reads it. -/
def getLabelAddress (σ : EmitterState) (label : Nat) : Option Nat :=
  lookupNat σ.labelLocations label

/-- The result of `getGlobalVariableAddress`: the tagged address, the
final state, and (when the path that delegates to the engine's external
memory-initialisation routine is taken) the emitter state as it stands at
the moment of that delegation call, so that re-entrant behaviour during
initialisation can be stated. -/
structure GVAResult where
  addr : Nat
  final : EmitterState
  initCallState : Option EmitterState
deriving DecidableEq, Repr

/-- `Emitter::getGlobalVariableAddress` (lines 108-139): return the tagged
existing offset if assigned; refuse external globals; otherwise round the
arena up to the preferred alignment, grow it by the alloc size, zero the
region, delegate to the engine's initialiser (unless thread-local), and
only then record the offset and return the tagged address. -/
def getGlobalVariableAddress (σ : EmitterState) (v : GlobalVariable) :
    Except EmitError GVAResult :=
  match lookupNat σ.globalOffsets v.gid with
  | some off => .ok ⟨taggedGlobalAddress off, σ, none⟩
  | none =>
    if v.isDeclFlag || v.hasAvailableExternallyLinkage then
      .error .externalGlobal
    else
      let S := v.allocSize
      let A := v.prefAlignment
      let offset := roundUpToAlignment σ.globalsSize A
      let σ₁ := { σ with globalsSize := offset + S }
      let initState := if v.isThreadLocal then none else some σ₁
      let σ₂ := { σ₁ with globalOffsets := (v.gid, offset) :: σ₁.globalOffsets }
      .ok ⟨taggedGlobalAddress offset, σ₂, initState⟩

/-- `Emitter::getGlobalAddress` (lines 141-149): tagged existing offset,
or `llvm_unreachable` when the global has no address yet. -/
def getGlobalAddress (σ : EmitterState) (gid : Nat) : Except EmitError Nat :=
  match lookupNat σ.globalOffsets gid with
  | some off => .ok (taggedGlobalAddress off)
  | none => .error .globalNotAllocated

/-- `Emitter::getPointerToGlobal` (lines 154-179): dispatch on the kind of
global value; functions fall through to the commented-out paths and
return null. -/
def getPointerToGlobal (σ : EmitterState) (gv : GlobalValue) (reference : Nat)
    (mayNeedFarStub : Bool) : Except EmitError (Nat × EmitterState) :=
  match gv with
  | .var v =>
    match getGlobalVariableAddress σ v with
    | .ok r => .ok (r.addr, r.final)
    | .error e => .error e
  | .aliasTo g =>
    match getGlobalAddress σ g with
    | .ok a => .ok (a, σ)
    | .error e => .error e
  | .func _ => .ok (0, σ)

/-- `Emitter::getPointerToGVIndirectSym` (lines 181-187): stub allocation
is elided; degenerates to `getPointerToGlobal` with `MayNeedFarStub`
false. -/
def getPointerToGVIndirectSym (σ : EmitterState) (gv : GlobalValue) (reference : Nat) :
    Except EmitError (Nat × EmitterState) :=
  getPointerToGlobal σ gv reference false

/-- `GetConstantPoolSizeInBytes` (lines 192-206): accumulate each entry's
size after rounding the running total up to the entry's alignment. -/
def GetConstantPoolSizeInBytes (constants : List CPEntry) : Nat :=
  if constants.isEmpty then 0
  else constants.foldl (fun size cpe => cpAlignUp size cpe.alignment + cpe.size) 0

/-- The entry loop of `emitConstantPool` (lines 374-393): per-entry
aligned offsets from `base`, recorded in order; a machine-specific entry
is fatal. -/
def emitCPAddresses (base offset : Nat) (l : List CPEntry) : Except EmitError (List Nat) :=
  match l with
  | [] => .ok []
  | cpe :: rest =>
    let off := cpAlignUp offset cpe.alignment
    if cpe.isMachineCPE then .error .machineCPE
    else
      match emitCPAddresses base (off + cpe.size) rest with
      | .ok addrs => .ok ((base + off) :: addrs)
      | .error e => .error e

/-- `Emitter::emitConstantPool` (lines 359-394): no-op for an empty pool;
otherwise allocate the pool block, remember the pool, bail out silently on
buffer overflow, and push each entry's absolute address. -/
def emitConstantPool (σ : EmitterState) (constants : List CPEntry) (cpAlign : Nat) :
    Except EmitError EmitterState :=
  if constants.isEmpty then .ok σ
  else
    let size := GetConstantPoolSizeInBytes constants
    let res := allocateSpace σ size cpAlign
    let σ₂ := { res.1 with constantPool := constants }
    if res.2 = 0 then .ok σ₂
    else
      match emitCPAddresses res.2 0 constants with
      | .ok addrs => .ok { σ₂ with constPoolAddresses := σ₂.constPoolAddresses ++ addrs }
      | .error e => .error e

/-- Modelled from the spec: `MachineJumpTableInfo::getEntrySize(TD)` of
the LLVM collaborator — the target-specific jump-table entry size:
pointer-sized for plain block addresses, 4 or 8 bytes for the relative
kinds, 0 for inline tables. -/
def getEntrySize (ptrSize : Nat) (k : JTEntryKind) : Nat :=
  match k with
  | .blockAddress => ptrSize
  | .gprel64BlockAddress => 8
  | .gprel32BlockAddress => 4
  | .labelDifference32 => 4
  | .custom32 => 4
  | .inlined => 0

/-- Modelled from the spec: `MachineJumpTableInfo::getEntryAlignment(TD)`
of the LLVM collaborator — the target-specific entry alignment. -/
def getEntryAlignment (ptrSize : Nat) (k : JTEntryKind) : Nat :=
  match k with
  | .blockAddress => ptrSize
  | .gprel64BlockAddress => 8
  | .gprel32BlockAddress => 4
  | .labelDifference32 => 4
  | .custom32 => 4
  | .inlined => 1

/-- Total entry count of a jump-table list (lines 405-407). -/
def jtNumEntries (jt : List MachineJumpTableEntry) : Nat :=
  (jt.map (fun t => t.mbbs.length)).sum

/-- `Emitter::initJumpTableInfo` (lines 396-417): skip custom or inline
tables and the empty list; otherwise remember the info and reserve
`NumEntries * EntrySize` bytes at the entry alignment, recording the
block base. -/
def initJumpTableInfo (σ : EmitterState) (mjti : MachineJumpTableInfo) : EmitterState :=
  if σ.hasCustomJumpTables then σ
  else if mjti.entryKind = .inlined then σ
  else if mjti.jumpTables.isEmpty then σ
  else
    let numEntries := jtNumEntries mjti.jumpTables
    let entrySize := getEntrySize σ.ptrSize mjti.entryKind
    let σ₁ := { σ with jumpTable := some mjti }
    let res := allocateSpace σ₁ (numEntries * entrySize) (getEntryAlignment σ.ptrSize mjti.entryKind)
    { res.1 with jumpTableBase := res.2 }

/-- `Emitter::emitJumpTableInfo` (lines 419-475): fill the reserved slots
from the recorded block addresses.  Slot contents are not modelled; the
entry-size assertions, the per-block emitted assertions, and the
unimplemented GPRel64 kind are. -/
def emitJumpTableInfo (σ : EmitterState) (mjti : MachineJumpTableInfo) :
    Except EmitError EmitterState :=
  if σ.hasCustomJumpTables then .ok σ
  else if mjti.jumpTables.isEmpty ∨ σ.jumpTableBase = 0 then .ok σ
  else
    match mjti.entryKind with
    | .inlined => .ok σ
    | .blockAddress =>
      if getEntrySize σ.ptrSize mjti.entryKind ≠ σ.ptrSize then .error .crossJIT
      else if mjti.jumpTables.all (fun t => t.mbbs.all
          (fun n => (getMachineBasicBlockAddress σ n).isSome)) then .ok σ
      else .error .mbbNotEmitted
    | .custom32 | .gprel32BlockAddress | .labelDifference32 =>
      if getEntrySize σ.ptrSize mjti.entryKind ≠ 4 then .error .crossJIT
      else if mjti.jumpTables.all (fun t => t.mbbs.all
          (fun n => (getMachineBasicBlockAddress σ n).isSome)) then .ok σ
      else .error .mbbNotEmitted
    | .gprel64BlockAddress => .error .unsupportedJTKind

/-- `EmittedFunctions[F]` (line 222): find the function's record or create
a value-initialised one, with `code.Function` set. -/
def ensureCode (σ : EmitterState) (fid : Nat) : EmitterState :=
  match lookupCode σ.emittedFunctions fid with
  | some _ => σ
  | none => { σ with emittedFunctions := (fid, ⟨fid, 0, 0, 0, []⟩) :: σ.emittedFunctions }

/-- Update the record of one function in the emitted-functions map
(mutation through the `CurrentCode` pointer). -/
def updateCode (σ : EmitterState) (fid : Nat) (f : EmittedCode → EmittedCode) : EmitterState :=
  { σ with emittedFunctions :=
      σ.emittedFunctions.map (fun p => if p.1 = fid then (p.1, f p.2) else p) }

/-- `Emitter::addRelocation` (lines 74-76): push onto the current
function's relocation list. -/
def addRelocation (σ : EmitterState) (mr : MachineRelocation) : EmitterState :=
  updateCode σ σ.currentFn (fun c => { c with relocations := c.relocations ++ [mr] })

/-- `Emitter::deallocateMemForFunction` (lines 336-344): release the body
(no-op in the model) and erase the function's record, if present. -/
def deallocateMemForFunction (σ : EmitterState) (fid : Nat) : EmitterState :=
  match lookupCode σ.emittedFunctions fid with
  | some _ => { σ with emittedFunctions := eraseCode σ.emittedFunctions fid }
  | none => σ

/-- `Emitter::retryWithMoreMemory` (lines 325-331): clear the constant
addresses, drop the function's partial record, and double the estimate to
twice the current buffer's size. -/
def retryWithMoreMemory (σ : EmitterState) (fid : Nat) : EmitterState :=
  let σ₁ := { σ with constPoolAddresses := [] }
  let σ₂ := deallocateMemForFunction σ₁ fid
  { σ₂ with sizeEstimate := 2 * (σ₂.bufferEnd - σ₂.bufferBegin) }

/-- The statements of `Emitter::startFunction` up to the constant-pool
layout (lines 212-231): open a buffer sized to the pending estimate
(default on first attempt), register the function's record, point it at
the buffer, and emit the 16-byte alignment. -/
def startFunctionPreCP (σ : EmitterState) (F : MachineFunctionData) : EmitterState :=
  let actualSize₀ := if σ.sizeEstimate > 0 then σ.sizeEstimate else 0
  let sfb := startFunctionBody σ actualSize₀
  let σ₂ := { sfb.1 with bufferBegin := sfb.2.1, curBufferPtr := sfb.2.1,
                         bufferEnd := sfb.2.1 + sfb.2.2 }
  let σ₃ := ensureCode σ₂ F.fnId
  let σ₄ := { σ₃ with currentFn := F.fnId }
  let σ₅ := updateCode σ₄ F.fnId (fun c => { c with functionBody := σ₄.bufferBegin })
  emitAlignment σ₅ 16

/-- The statements of `Emitter::startFunction` after the constant-pool
layout (lines 233-240): reserve the jump table, align for code, record
the code start, and clear the block locations. -/
def startFunctionPostCP (σ₇ : EmitterState) (F : MachineFunctionData) : EmitterState :=
  let σ₈ := match F.jumpTableInfo with
    | some mjti => initJumpTableInfo σ₇ mjti
    | none => σ₇
  let σ₉ := emitAlignment σ₈ (max F.fnAlignment 8)
  let σ₁₀ := updateCode σ₉ F.fnId (fun c => { c with codeStart := σ₉.curBufferPtr })
  { σ₁₀ with mbbLocations := [] }

/-- `Emitter::startFunction` (lines 208-241), composed of the two stages
around the (fallible) constant-pool layout. -/
def startFunction (σ : EmitterState) (F : MachineFunctionData) :
    Except EmitError EmitterState :=
  match emitConstantPool (startFunctionPreCP σ F) F.constants F.cpAlignment with
  | .error e => .error e
  | .ok σ₇ => .ok (startFunctionPostCP σ₇ F)

/-- `Emitter::finishFunction` (lines 243-280): cursor at the buffer end
means overflow and retry; otherwise fill the jump table, record the final
size, retry if closing out exhausted the buffer, and on success reset the
estimate, drop the active buffer and clear the constant addresses.  The
`true` result is the retry signal. -/
def finishFunction (σ : EmitterState) (F : MachineFunctionData) :
    Except EmitError (Bool × EmitterState) :=
  if σ.curBufferPtr = σ.bufferEnd then
    .ok (true, retryWithMoreMemory σ F.fnId)
  else
    let step : Except EmitError EmitterState :=
      match F.jumpTableInfo with
      | some mjti => emitJumpTableInfo σ mjti
      | none => .ok σ
    match step with
    | .error e => .error e
    | .ok σ₁ =>
      let σ₂ := updateCode σ₁ σ₁.currentFn (fun c => { c with size := σ₁.curBufferPtr - c.codeStart })
      if σ₂.curBufferPtr = σ₂.bufferEnd then .ok (true, retryWithMoreMemory σ₂ F.fnId)
      else
        let σ₃ := { σ₂ with sizeEstimate := 0 }
        let σ₄ := { σ₃ with bufferBegin := 0, curBufferPtr := 0 }
        .ok (false, { σ₄ with constPoolAddresses := [] })

/-- `Emitter::getConstantPoolEntryAddress` (lines 490-494): asserts the
index against the remembered pool's entry count, then reads the recorded
address list (an out-of-range read of that list is also a failure). -/
def getConstantPoolEntryAddress (σ : EmitterState) (constantNum : Nat) : Option Nat :=
  if constantNum < σ.constantPool.length then σ.constPoolAddresses.get? constantNum
  else none

/-- `Emitter::getJumpTableEntryAddress` (lines 499-512): asserts the index
against the remembered table list, sums the entry counts of all preceding
tables, scales by the entry size and offsets from the jump-table base. -/
def getJumpTableEntryAddress (σ : EmitterState) (index : Nat) : Option Nat :=
  match σ.jumpTable with
  | none => none
  | some mjti =>
    if index < mjti.jumpTables.length then
      let entrySize := getEntrySize σ.ptrSize mjti.entryKind
      let offset := jtNumEntries (mjti.jumpTables.take index) * entrySize
      some (σ.jumpTableBase + offset)
    else none

/-- Modelled from the spec: `engine.getPointerToNamedFunction` — the
external symbol table, looked up by (numbered) name. -/
def lookupExternalSymbol (σ : EmitterState) (name : Nat) : Option Nat :=
  lookupNat σ.externalSymbols name

/-- One iteration of the relocation-resolution dispatch in
`Emitter::resolveRelocations` (lines 289-315): skip target-resolved
relocations; an external symbol hits the unconditional `abort()` at line
293 before the name lookup; the other kinds consult the corresponding
table and store the result pointer. -/
def resolveMachineRelocation (σ : EmitterState) (bufferBegin : Nat) (mr : MachineRelocation) :
    Except EmitError (MachineRelocation × EmitterState) :=
  if mr.letTargetResolve then .ok (mr, σ)
  else
    match mr.kind with
    | .externalSymbol _ => .error .abortCalled
    | .globalValue gv =>
      match getPointerToGlobal σ gv (bufferBegin + mr.machineCodeOffset) mr.mayNeedFarStub with
      | .ok (p, σ₁) => .ok ({ mr with resultPointer := some p }, σ₁)
      | .error e => .error e
    | .indirectSymbol gv =>
      match getPointerToGVIndirectSym σ gv (bufferBegin + mr.machineCodeOffset) with
      | .ok (p, σ₁) => .ok ({ mr with resultPointer := some p }, σ₁)
      | .error e => .error e
    | .basicBlock n =>
      match getMachineBasicBlockAddress σ n with
      | some a => .ok ({ mr with resultPointer := some a }, σ)
      | none => .error .mbbNotEmitted
    | .constantPoolIndex i =>
      match getConstantPoolEntryAddress σ i with
      | some a => .ok ({ mr with resultPointer := some a }, σ)
      | none => .error .invalidConstantPoolIndex
    | .jumpTableIndex i =>
      match getJumpTableEntryAddress σ i with
      | some a => .ok ({ mr with resultPointer := some a }, σ)
      | none => .error .invalidJumpTableIndex

/-- Resolve a function's relocation list in order, threading the state. -/
def resolveList (σ : EmitterState) (l : List MachineRelocation) :
    Except EmitError (List MachineRelocation × EmitterState) :=
  match l with
  | [] => .ok ([], σ)
  | mr :: rest =>
    match resolveMachineRelocation σ σ.bufferBegin mr with
    | .error e => .error e
    | .ok (mr₁, σ₁) =>
      match resolveList σ₁ rest with
      | .error e => .error e
      | .ok (rl, σ₂) => .ok (mr₁ :: rl, σ₂)

/-- The per-function loop of `resolveRelocations` (lines 284-322): for
each emitted function with relocations, resolve them all and hand the
batch to the target patcher (byte patching and the diagnostic
disassembly are outside the model). -/
def resolveAllFunctions (σ : EmitterState) (l : List (Nat × EmittedCode)) :
    Except EmitError EmitterState :=
  match l with
  | [] => .ok σ
  | (fid, code) :: rest =>
    if code.relocations.isEmpty then resolveAllFunctions σ rest
    else
      match resolveList σ code.relocations with
      | .error e => .error e
      | .ok (rl, σ₁) =>
        let σ₂ := updateCode σ₁ fid (fun c => { c with relocations := rl })
        resolveAllFunctions σ₂ rest

/-- `Emitter::resolveRelocations` (lines 282-323): one pass over every
emitted function. -/
def resolveRelocations (σ : EmitterState) : Except EmitError EmitterState :=
  resolveAllFunctions σ σ.emittedFunctions

/-! Concrete engine runs used by the claim theorems and witnesses. -/

/-- Extract the state of a successful step, with a fallback default. -/
def okState (e : Except EmitError EmitterState) (d : EmitterState) : EmitterState :=
  match e with
  | .ok σ => σ
  | .error _ => d

/-- Extract the state of a `finishFunction` result, with a fallback. -/
def okFinish (e : Except EmitError (Bool × EmitterState)) (d : EmitterState) : EmitterState :=
  match e with
  | .ok p => p.2
  | .error _ => d

/-- A freshly constructed engine: no pending estimate, no open buffer,
empty tables, heap handed out from 0x100000 on, 8-byte pointers. -/
def initialState : EmitterState :=
  { sizeEstimate := 0, bufferBegin := 0, bufferEnd := 0, curBufferPtr := 0,
    nextAlloc := 0x100000, mbbLocations := [], labelLocations := [],
    constPoolAddresses := [], constantPool := [], jumpTable := none,
    jumpTableBase := 0, emittedFunctions := [], currentFn := 0,
    globalOffsets := [], globalsSize := 0, externalSymbols := [],
    hasCustomJumpTables := false, ptrSize := 8 }

/-- A function with one 4-byte, 4-aligned constant-pool entry. -/
def fnCP : MachineFunctionData :=
  { fnId := 1, fnAlignment := 1, constants := [⟨4, 4, false⟩], cpAlignment := 4,
    jumpTableInfo := none }

/-- A relocation against constant-pool index 0. -/
def cpReloc : MachineRelocation :=
  { machineCodeOffset := 0, kind := .constantPoolIndex 0, letTargetResolve := false,
    mayNeedFarStub := false, resultPointer := none }

/-- State after `startFunction` of `fnCP` on the fresh engine. -/
def c1afterStart : EmitterState := okState (startFunction initialState fnCP) initialState

/-- ... after recording the constant-pool relocation and 8 code bytes. -/
def c1afterEmit : EmitterState := emitBytes (addRelocation c1afterStart cpReloc) 8

/-- ... after a successful `finishFunction`. -/
def c1final : EmitterState := okFinish (finishFunction c1afterEmit fnCP) c1afterEmit

/-- A function with no constant pool and no jump table, identity 1. -/
def fnPlain1 : MachineFunctionData :=
  { fnId := 1, fnAlignment := 1, constants := [], cpAlignment := 4, jumpTableInfo := none }

/-- A second plain function, identity 2. -/
def fnPlain2 : MachineFunctionData :=
  { fnId := 2, fnAlignment := 1, constants := [], cpAlignment := 4, jumpTableInfo := none }

/-- A relocation against basic block number 0. -/
def bbReloc : MachineRelocation :=
  { machineCodeOffset := 4, kind := .basicBlock 0, letTargetResolve := false,
    mayNeedFarStub := false, resultPointer := none }

/-- Two-function run: function 1 starts. -/
def c4s1 : EmitterState := okState (startFunction initialState fnPlain1) initialState

/-- Function 1 records its block 0 at the current PC. -/
def c4s2 : EmitterState := StartMachineBasicBlock c4s1 0

/-- Function 1 records a block-0 relocation and 16 code bytes. -/
def c4s3 : EmitterState := emitBytes (addRelocation c4s2 bbReloc) 16

/-- Function 1 finishes successfully. -/
def c4s4 : EmitterState := okFinish (finishFunction c4s3 fnPlain1) c4s3

/-- Function 2 starts (this clears the shared block-location table). -/
def c4s5 : EmitterState := okState (startFunction c4s4 fnPlain2) c4s4

/-- Function 2 records its own block 0 at its (different) PC. -/
def c4s6 : EmitterState := StartMachineBasicBlock c4s5 0

/-- Function 2 emits 8 code bytes. -/
def c4s7 : EmitterState := emitBytes c4s6 8

/-- Function 2 finishes successfully; both functions are now Finished. -/
def c4final : EmitterState := okFinish (finishFunction c4s7 fnPlain2) c4s7

/-- The state after the batch `resolveRelocations` pass of the two-function run. -/
def c4resolved : EmitterState := okState (resolveRelocations c4final) c4final

/-- Overflow run: function 1 starts, ... -/
def c7s1 : EmitterState := okState (startFunction initialState fnPlain1) initialState

/-- ... emits label 42 at the current PC, ... -/
def c7s2 : EmitterState := emitLabel c7s1 42

/-- ... then fills the whole 0x1000-byte buffer (out of space). -/
def c7s3 : EmitterState := emitBytes c7s2 0x1000

/-- The retry state produced by the overflowed `finishFunction`. -/
def c7retry : EmitterState := okFinish (finishFunction c7s3 fnPlain1) c7s3

/-- The state at the start of the retried attempt. -/
def c7restart : EmitterState := okState (startFunction c7retry fnPlain1) c7retry

/-- Fill `fnCP`'s first-attempt buffer completely, for the overflow path. -/
def c6ov : EmitterState := emitBytes c1afterStart 0x1000

/-- The retry state after the overflowed `finishFunction` of `fnCP`. -/
def c6retryState : EmitterState := okFinish (finishFunction c6ov fnCP) c6ov

/-- The constant-pool entries of the spec's layout scenario: sizes {3,1},
alignments {4,1}. -/
def c8entries : List CPEntry := [⟨3, 4, false⟩, ⟨1, 1, false⟩]

/-- An engine with an open, roomy, 16-aligned buffer at 0x200000. -/
def c8state : EmitterState :=
  { initialState with bufferBegin := 0x200000, curBufferPtr := 0x200000, bufferEnd := 0x201000 }

/-- The state after emitting the scenario's constant pool. -/
def c8after : EmitterState := okState (emitConstantPool c8state c8entries 4) c8state

/-- A relocation against external symbol 7, not target-resolved. -/
def extReloc : MachineRelocation :=
  { machineCodeOffset := 0, kind := .externalSymbol 7, letTargetResolve := false,
    mayNeedFarStub := false, resultPointer := none }

/-- An engine whose external symbol table does resolve symbol 7. -/
def c3state : EmitterState :=
  { initialState with externalSymbols := [(7, 0x4000)] }

/-- An engine with an open, roomy, 16-aligned buffer at 0x300000. -/
def c9state : EmitterState :=
  { initialState with bufferBegin := 0x300000, curBufferPtr := 0x300000, bufferEnd := 0x301000 }

/-- A jump-table info with two tables of 3 and 2 blocks, plain addresses. -/
def c9mjti : MachineJumpTableInfo :=
  { entryKind := .blockAddress, jumpTables := [⟨[0, 1, 2]⟩, ⟨[3, 4]⟩] }

/-- A defined, non-thread-local global of size 8, alignment 8. -/
def gvA : GlobalVariable :=
  { gid := 1, isDeclFlag := false, hasAvailableExternallyLinkage := false,
    allocSize := 8, prefAlignment := 8, isThreadLocal := false }

/-- The result of the first `addressOf(gvA)` call on the fresh engine. -/
def c2result : GVAResult :=
  match getGlobalVariableAddress initialState gvA with
  | .ok r => r
  | .error _ => ⟨0, initialState, none⟩

/-- The emitter state at the moment `addressOf(gvA)` delegates to the
engine's memory-initialisation routine. -/
def c2initState : EmitterState := c2result.initCallState.getD initialState

/-- The result a re-entrant `addressOf(gvA)` call issued from inside the
initialisation of `gvA` would produce. -/
def c2reentrant : GVAResult :=
  match getGlobalVariableAddress c2initState gvA with
  | .ok r => r
  | .error _ => ⟨0, initialState, none⟩

/-! Theorems. -/

/-- Bits of `b` are all present after or-ing `b` in: `(a ||| b) &&& b = b`. -/
theorem lor_and_self (a b : Nat) : (a ||| b) &&& b = b := by
  apply Nat.eq_of_testBit_eq
  intro i
  rw [Nat.testBit_land, Nat.testBit_lor]
  cases ha : a.testBit i <;> cases hb : b.testBit i <;> rfl

/-- First-match lookup finds a freshly consed binding. -/
theorem lookupNat_cons_self (m : List (Nat × Nat)) (k v : Nat) :
    lookupNat ((k, v) :: m) k = some v := by
  simp [lookupNat]

/-- C10: the tagged address is `offset | 0xDA000000`; for offsets below
2^24 tagging is injective and the offset is recovered by stripping the
marker bits, while from 2^24 on the or-based tagging stops being
injective (offsets 2^25 and 0 collide, since bit 25 lies inside the
marker). -/
theorem claim10_tagging_injective_below_2pow24 :
    (∀ o1 o2 : Nat, o1 < 2 ^ 24 → o2 < 2 ^ 24 →
      (taggedGlobalAddress o1 = taggedGlobalAddress o2 ↔ o1 = o2)) ∧
    (∀ o : Nat, o < 2 ^ 24 → strippedOffset (taggedGlobalAddress o) = o) ∧
    (2 ^ 24 ≤ 2 ^ 25 ∧ (2 ^ 25 : Nat) ≠ 0 ∧
      taggedGlobalAddress (2 ^ 25) = taggedGlobalAddress 0) := by
  have hstrip : ∀ o : Nat, o < 2 ^ 24 → strippedOffset (taggedGlobalAddress o) = o := by
    intro o ho
    unfold strippedOffset taggedGlobalAddress
    have hM : (0xFFFFFF : Nat) = 2 ^ 24 - 1 := by norm_num
    rw [hM, Nat.and_distrib_right, Nat.and_pow_two_sub_one_of_lt_two_pow ho]
    have hz : (0xDA000000 : Nat) &&& (2 ^ 24 - 1) = 0 := by decide
    rw [hz, Nat.or_zero]
  refine ⟨?_, hstrip, by decide, by decide, by decide⟩
  intro o1 o2 h1 h2
  constructor
  · intro h
    have := hstrip o1 h1
    rw [h, hstrip o2 h2] at this
    exact this.symm
  · intro h
    rw [h]

/-- Witness for C10 at offset 3. -/
theorem claim10_witness :
    (taggedGlobalAddress 3 = taggedGlobalAddress 3 ↔ 3 = 3) ∧
    strippedOffset (taggedGlobalAddress 3) = 3 :=
  ⟨claim10_tagging_injective_below_2pow24.1 3 3 (by decide) (by decide),
   claim10_tagging_injective_below_2pow24.2.1 3 (by decide)⟩

/-- C5: for a global defined in the unit, `addressOf` succeeds, a repeated
call returns the identical tagged address (and state), and every returned
address carries the reserved marker bits 0xDA000000 exactly. -/
theorem claim5_addressOf_idempotent_and_tagged
    (σ : EmitterState) (v : GlobalVariable)
    (hdecl : v.isDeclFlag = false) (hext : v.hasAvailableExternallyLinkage = false) :
    ∃ r : GVAResult,
      getGlobalVariableAddress σ v = .ok r ∧
      getGlobalVariableAddress r.final v = .ok ⟨r.addr, r.final, none⟩ ∧
      r.addr &&& 0xDA000000 = 0xDA000000 := by
  cases h : lookupNat σ.globalOffsets v.gid with
  | some off =>
    refine ⟨⟨taggedGlobalAddress off, σ, none⟩, ?_, ?_, ?_⟩
    · simp [getGlobalVariableAddress, h]
    · simp [getGlobalVariableAddress, h]
    · exact lor_and_self off 0xDA000000
  | none =>
    refine ⟨⟨taggedGlobalAddress (roundUpToAlignment σ.globalsSize v.prefAlignment),
      { σ with
          globalsSize := roundUpToAlignment σ.globalsSize v.prefAlignment + v.allocSize,
          globalOffsets := (v.gid, roundUpToAlignment σ.globalsSize v.prefAlignment)
            :: σ.globalOffsets },
      if v.isThreadLocal then none
      else some { σ with
        globalsSize := roundUpToAlignment σ.globalsSize v.prefAlignment + v.allocSize }⟩,
      ?_, ?_, ?_⟩
    · simp [getGlobalVariableAddress, h, hdecl, hext]
    · simp [getGlobalVariableAddress, lookupNat_cons_self]
    · exact lor_and_self _ 0xDA000000

/-- Witness for C5: the defined global `gvA` on the fresh engine. -/
theorem claim5_witness :
    ∃ r : GVAResult,
      getGlobalVariableAddress initialState gvA = .ok r ∧
      getGlobalVariableAddress r.final gvA = .ok ⟨r.addr, r.final, none⟩ ∧
      r.addr &&& 0xDA000000 = 0xDA000000 :=
  claim5_addressOf_idempotent_and_tagged initialState gvA rfl rfl

/-- C2 counterexample: on the fresh engine, at the moment
`getGlobalVariableAddress` delegates to the engine's initialiser the
global-to-offset registry does NOT yet contain `gvA` (the recording
happens after the delegation, line 136 after line 134), so a re-entrant
lookup during initialisation allocates a second slot at a different
tagged address — contradicting the claim that the mapping is recorded
before delegating. -/
theorem claim2_counterexample :
    getGlobalVariableAddress initialState gvA = .ok c2result ∧
    c2result.initCallState = some c2initState ∧
    lookupNat c2initState.globalOffsets gvA.gid = none ∧
    getGlobalVariableAddress c2initState gvA = .ok c2reentrant ∧
    c2reentrant.addr = 0xDA000008 ∧
    c2result.addr = 0xDA000000 := by
  refine ⟨rfl, rfl, rfl, rfl, rfl, rfl⟩

/-- C2 amended: `addressOf` records the global-to-offset mapping only
after the external initialiser is invoked (immediately before returning
the tagged address): the registry seen at the delegation call does not
contain the global, while the final registry does. -/
theorem claim2_amended_records_after_delegation
    (σ : EmitterState) (v : GlobalVariable)
    (hfresh : lookupNat σ.globalOffsets v.gid = none)
    (hdecl : v.isDeclFlag = false) (hext : v.hasAvailableExternallyLinkage = false)
    (htl : v.isThreadLocal = false) :
    ∃ σᵢ r, getGlobalVariableAddress σ v = .ok r ∧
      r.initCallState = some σᵢ ∧
      lookupNat σᵢ.globalOffsets v.gid = none ∧
      lookupNat r.final.globalOffsets v.gid =
        some (roundUpToAlignment σ.globalsSize v.prefAlignment) := by
  refine ⟨{ σ with
      globalsSize := roundUpToAlignment σ.globalsSize v.prefAlignment + v.allocSize },
    ⟨taggedGlobalAddress (roundUpToAlignment σ.globalsSize v.prefAlignment),
      { σ with
          globalsSize := roundUpToAlignment σ.globalsSize v.prefAlignment + v.allocSize,
          globalOffsets := (v.gid, roundUpToAlignment σ.globalsSize v.prefAlignment)
            :: σ.globalOffsets },
      some { σ with
        globalsSize := roundUpToAlignment σ.globalsSize v.prefAlignment + v.allocSize }⟩,
    ?_, rfl, hfresh, ?_⟩
  · simp [getGlobalVariableAddress, hfresh, hdecl, hext, htl]
  · simp [lookupNat_cons_self]

/-- Witness for the amended C2 at the fresh engine and `gvA`. -/
theorem claim2_amended_witness :
    ∃ σᵢ r, getGlobalVariableAddress initialState gvA = .ok r ∧
      r.initCallState = some σᵢ ∧
      lookupNat σᵢ.globalOffsets gvA.gid = none ∧
      lookupNat r.final.globalOffsets gvA.gid =
        some (roundUpToAlignment initialState.globalsSize gvA.prefAlignment) :=
  claim2_amended_records_after_delegation initialState gvA rfl rfl rfl rfl

/-- C3 counterexample: an engine whose external symbol table resolves
symbol 7 to address 0x4000 still aborts fatally on an external-symbol
relocation that is not target-resolved — contradicting the claim that the
fatal exit happens if and only if the lookup fails. -/
theorem claim3_counterexample :
    lookupExternalSymbol c3state 7 = some 0x4000 ∧
    extReloc.letTargetResolve = false ∧
    resolveMachineRelocation c3state c3state.bufferBegin extReloc = .error .abortCalled := by
  refine ⟨rfl, rfl, rfl⟩

/-- C3 amended: every external-symbol relocation not flagged
target-resolved hits the unconditional `abort()` (line 293) before the
symbol-table lookup, so resolution is fatal regardless of whether the
symbol would resolve. -/
theorem claim3_amended_always_aborts
    (σ : EmitterState) (b : Nat) (mr : MachineRelocation) (name : Nat)
    (hkind : mr.kind = .externalSymbol name) (hres : mr.letTargetResolve = false) :
    resolveMachineRelocation σ b mr = .error .abortCalled := by
  unfold resolveMachineRelocation
  rw [hres, hkind]
  rfl

/-- Witness for the amended C3 on the resolvable symbol table. -/
theorem claim3_amended_witness :
    resolveMachineRelocation c3state 0 extReloc = .error .abortCalled :=
  claim3_amended_always_aborts c3state 0 extReloc 7 rfl rfl

/-- C8 counterexample: on entry sizes {3,1} with alignments {4,1} the code
computes offsets {0,3} and size 4 — the claimed offsets {0,4} and total
size ≥ 5 are both false (the second entry's alignment is 1, so its naive
offset 3 is not rounded). -/
theorem claim8_counterexample :
    GetConstantPoolSizeInBytes c8entries = 4 ∧
    emitCPAddresses 0 0 c8entries = .ok [0, 3] ∧
    ¬(5 ≤ GetConstantPoolSizeInBytes c8entries) := by
  refine ⟨rfl, rfl, by decide⟩

/-- C8 amended: for the pool with entry sizes {3,1} and alignments {4,1},
the layout computes entry offsets {0,3} and a total size of 4 bytes; the
in-buffer emission records addresses base+0 and base+3 and advances the
cursor by 4. -/
theorem claim8_amended_layout :
    emitConstantPool c8state c8entries 4 = .ok c8after ∧
    c8after.constPoolAddresses = [0x200000, 0x200003] ∧
    GetConstantPoolSizeInBytes c8entries = 4 ∧
    c8after.curBufferPtr = 0x200004 := by
  refine ⟨rfl, rfl, rfl, rfl⟩

/-- C1, evaluated at the failing input: emitting `fnCP` records the
constant-pool entry's address 0x100000, but the successful
`finishFunction` clears the per-function constant-address list (line 277)
before `resolveRelocations` ever runs, so resolving the function's
constant-pool-index relocation after it reached Finished reads an empty
list and fails instead of returning the recorded address — the list does
not stay valid until the next function starts constant-pool emission. -/
theorem claim1_finish_discards_constant_addresses :
    startFunction initialState fnCP = .ok c1afterStart ∧
    c1afterStart.constPoolAddresses = [0x100000] ∧
    finishFunction c1afterEmit fnCP = .ok (false, c1final) ∧
    c1final.constPoolAddresses = [] ∧
    c1final.constantPool = [⟨4, 4, false⟩] ∧
    resolveMachineRelocation c1final c1final.bufferBegin cpReloc =
      .error .invalidConstantPoolIndex ∧
    resolveRelocations c1final = .error .invalidConstantPoolIndex := by
  refine ⟨rfl, rfl, rfl, rfl, rfl, rfl, rfl⟩

/-- C4, evaluated at the failing input: function 1 records its block 0 at
0x100000 during its final (only) attempt and carries a basic-block
relocation to it; function 2 then records its own block 0 at 0x101000, and
because `MBBLocations` is a single emitter-wide table cleared at each
`startFunction`, the batch `resolveRelocations` pass resolves function 1's
relocation to function 2's 0x101000 instead of the recorded 0x100000. -/
theorem claim4_block_relocation_uses_last_function_table :
    startFunction initialState fnPlain1 = .ok c4s1 ∧
    c4s2.mbbLocations.getD 0 0 = 0x100000 ∧
    finishFunction c4s3 fnPlain1 = .ok (false, c4s4) ∧
    startFunction c4s4 fnPlain2 = .ok c4s5 ∧
    c4s6.mbbLocations.getD 0 0 = 0x101000 ∧
    finishFunction c4s7 fnPlain2 = .ok (false, c4final) ∧
    (lookupCode c4final.emittedFunctions 1).map (fun c => c.relocations) = some [bbReloc] ∧
    resolveMachineRelocation c4final c4final.bufferBegin bbReloc =
      .ok ({ bbReloc with resultPointer := some 0x101000 }, c4final) ∧
    resolveRelocations c4final = .ok c4resolved ∧
    (lookupCode c4resolved.emittedFunctions 1).map (fun c => c.relocations) =
      some [{ bbReloc with resultPointer := some 0x101000 }] ∧
    (0x101000 : Nat) ≠ 0x100000 := by
  refine ⟨rfl, rfl, rfl, rfl, rfl, rfl, rfl, rfl, rfl, rfl, by decide⟩

/-- C7 counterexample: label 42 is recorded at 0x100000 during an attempt
that overflows and is discarded, yet after the retrying `startFunction`
the label is still present in the label-location table — the location
tables are not all cleared at the start of `startFunction` (only the
block table is; `LabelLocations` is never cleared). -/
theorem claim7_counterexample :
    finishFunction c7s3 fnPlain1 = .ok (true, c7retry) ∧
    startFunction c7retry fnPlain1 = .ok c7restart ∧
    getLabelAddress c7s2 42 = some 0x100000 ∧
    getLabelAddress c7restart 42 = some 0x100000 := by
  refine ⟨rfl, rfl, rfl, rfl⟩

/-- `allocateSpace` only moves the cursor and buffer bookkeeping: the
tables, estimate and target parameters are untouched. -/
theorem allocateSpace_frame (σ : EmitterState) (s a : Nat) :
    (allocateSpace σ s a).1.emittedFunctions = σ.emittedFunctions ∧
    (allocateSpace σ s a).1.labelLocations = σ.labelLocations ∧
    (allocateSpace σ s a).1.sizeEstimate = σ.sizeEstimate ∧
    (allocateSpace σ s a).1.currentFn = σ.currentFn ∧
    (allocateSpace σ s a).1.jumpTable = σ.jumpTable ∧
    (allocateSpace σ s a).1.ptrSize = σ.ptrSize ∧
    (allocateSpace σ s a).1.constantPool = σ.constantPool ∧
    (allocateSpace σ s a).1.constPoolAddresses = σ.constPoolAddresses := by
  unfold allocateSpace
  split
  · dsimp only
    split <;> simp [emitAlignment]
  · simp

/-- With an open buffer, `allocateSpace` bump-allocates in place: the
buffer bounds are unchanged. -/
theorem allocateSpace_open_buffer (σ : EmitterState) (s a : Nat) (hb : σ.bufferBegin ≠ 0) :
    (allocateSpace σ s a).1.bufferBegin = σ.bufferBegin ∧
    (allocateSpace σ s a).1.bufferEnd = σ.bufferEnd := by
  unfold allocateSpace
  rw [if_pos hb]
  dsimp only
  split <;> simp [emitAlignment]

/-- A successful `emitConstantPool` touches only the cursor, the
remembered pool and the recorded addresses; with an open buffer the
buffer bounds are also unchanged. -/
theorem emitConstantPool_ok_frame (σ : EmitterState) (cs : List CPEntry) (al : Nat)
    (σ₇ : EmitterState) (h : emitConstantPool σ cs al = .ok σ₇) :
    σ₇.emittedFunctions = σ.emittedFunctions ∧
    σ₇.labelLocations = σ.labelLocations ∧
    σ₇.sizeEstimate = σ.sizeEstimate ∧
    σ₇.currentFn = σ.currentFn ∧
    σ₇.jumpTable = σ.jumpTable ∧
    σ₇.ptrSize = σ.ptrSize ∧
    (σ.bufferBegin ≠ 0 → σ₇.bufferBegin = σ.bufferBegin ∧ σ₇.bufferEnd = σ.bufferEnd) := by
  unfold emitConstantPool at h
  split at h
  · cases h
    exact ⟨rfl, rfl, rfl, rfl, rfl, rfl, fun _ => ⟨rfl, rfl⟩⟩
  · dsimp only at h
    split at h
    · cases h
      obtain ⟨h1, h2, h3, h4, h5, h6, _, _⟩ := allocateSpace_frame σ (GetConstantPoolSizeInBytes cs) al
      exact ⟨h1, h2, h3, h4, h5, h6, fun hb =>
        ⟨(allocateSpace_open_buffer σ _ _ hb).1, (allocateSpace_open_buffer σ _ _ hb).2⟩⟩
    · split at h
      · cases h
        obtain ⟨h1, h2, h3, h4, h5, h6, _, _⟩ := allocateSpace_frame σ (GetConstantPoolSizeInBytes cs) al
        exact ⟨h1, h2, h3, h4, h5, h6, fun hb =>
          ⟨(allocateSpace_open_buffer σ _ _ hb).1, (allocateSpace_open_buffer σ _ _ hb).2⟩⟩
      · cases h

/-- `initJumpTableInfo` touches only the cursor, the remembered table
info and the table base; with an open buffer the bounds also persist. -/
theorem initJumpTableInfo_frame (σ : EmitterState) (m : MachineJumpTableInfo) :
    (initJumpTableInfo σ m).emittedFunctions = σ.emittedFunctions ∧
    (initJumpTableInfo σ m).labelLocations = σ.labelLocations ∧
    (initJumpTableInfo σ m).sizeEstimate = σ.sizeEstimate ∧
    (initJumpTableInfo σ m).currentFn = σ.currentFn ∧
    (initJumpTableInfo σ m).ptrSize = σ.ptrSize ∧
    (σ.bufferBegin ≠ 0 →
      (initJumpTableInfo σ m).bufferBegin = σ.bufferBegin ∧
      (initJumpTableInfo σ m).bufferEnd = σ.bufferEnd) := by
  unfold initJumpTableInfo
  split
  · exact ⟨rfl, rfl, rfl, rfl, rfl, fun _ => ⟨rfl, rfl⟩⟩
  · split
    · exact ⟨rfl, rfl, rfl, rfl, rfl, fun _ => ⟨rfl, rfl⟩⟩
    · split
      · exact ⟨rfl, rfl, rfl, rfl, rfl, fun _ => ⟨rfl, rfl⟩⟩
      · dsimp only
        obtain ⟨h1, h2, h3, h4, _, h6, _, _⟩ :=
          allocateSpace_frame { σ with jumpTable := some m }
            (jtNumEntries m.jumpTables * getEntrySize σ.ptrSize m.entryKind)
            (getEntryAlignment σ.ptrSize m.entryKind)
        refine ⟨h1, h2, h3, h4, h6, fun hb => ?_⟩
        have hb₁ : ({ σ with jumpTable := some m } : EmitterState).bufferBegin ≠ 0 := hb
        exact ⟨(allocateSpace_open_buffer _ _ _ hb₁).1, (allocateSpace_open_buffer _ _ _ hb₁).2⟩

/-- A successful `emitJumpTableInfo` leaves the state unchanged (only
memory contents outside the model are written). -/
theorem emitJumpTableInfo_ok_eq (σ : EmitterState) (m : MachineJumpTableInfo)
    (σ₁ : EmitterState) (h : emitJumpTableInfo σ m = .ok σ₁) : σ₁ = σ := by
  unfold emitJumpTableInfo at h
  split at h
  · cases h; rfl
  · split at h
    · cases h; rfl
    · split at h <;> first
        | (cases h; rfl)
        | (split at h <;> first
            | (cases h; rfl)
            | (split at h <;> first | (cases h; rfl) | simp at h)
            | simp at h)
        | simp at h

/-- `ensureCode` only (possibly) extends the emitted-functions map. -/
theorem ensureCode_frame (σ : EmitterState) (fid : Nat) :
    (ensureCode σ fid).bufferBegin = σ.bufferBegin ∧
    (ensureCode σ fid).bufferEnd = σ.bufferEnd ∧
    (ensureCode σ fid).curBufferPtr = σ.curBufferPtr ∧
    (ensureCode σ fid).labelLocations = σ.labelLocations ∧
    (ensureCode σ fid).sizeEstimate = σ.sizeEstimate ∧
    (ensureCode σ fid).ptrSize = σ.ptrSize := by
  cases hc : lookupCode σ.emittedFunctions fid <;> simp [ensureCode, hc]

/-- Looking up a function just registered by `ensureCode` yields the
value-initialised record. -/
theorem lookupCode_ensure_none (σ : EmitterState) (fid : Nat)
    (h : lookupCode σ.emittedFunctions fid = none) :
    lookupCode (ensureCode σ fid).emittedFunctions fid = some ⟨fid, 0, 0, 0, []⟩ := by
  simp [ensureCode, h, lookupCode]

/-- Updating one function's record maps its looked-up value. -/
theorem lookupCode_update_self (σ : EmitterState) (fid : Nat) (f : EmittedCode → EmittedCode) :
    lookupCode (updateCode σ fid f).emittedFunctions fid =
      (lookupCode σ.emittedFunctions fid).map f := by
  show lookupCode (σ.emittedFunctions.map fun p => if p.1 = fid then (p.1, f p.2) else p) fid =
    (lookupCode σ.emittedFunctions fid).map f
  induction σ.emittedFunctions with
  | nil => rfl
  | cons hd tl ih =>
    obtain ⟨k, c⟩ := hd
    dsimp only [List.map_cons]
    rcases eq_or_ne k fid with hk | hk
    · subst hk
      rw [if_pos rfl]
      conv_lhs => rw [lookupCode]
      conv_rhs => rw [lookupCode]
      rw [if_pos rfl, if_pos rfl]
      rfl
    · rw [if_neg hk]
      conv_lhs => rw [lookupCode]
      conv_rhs => rw [lookupCode]
      rw [if_neg hk, if_neg hk]
      exact ih

/-- Erasing a function's record makes its lookup fail. -/
theorem lookupCode_erase_self (m : List (Nat × EmittedCode)) (k : Nat) :
    lookupCode (eraseCode m k) k = none := by
  induction m with
  | nil => rfl
  | cons hd tl ih =>
    obtain ⟨a, b⟩ := hd
    by_cases ha : a = k <;> simp [eraseCode, lookupCode, ha] at ih ⊢ <;> simpa [eraseCode] using ih

/-- After `deallocateMemForFunction` the function's record is gone. -/
theorem lookupCode_deallocate_self (σ : EmitterState) (fid : Nat) :
    lookupCode (deallocateMemForFunction σ fid).emittedFunctions fid = none := by
  unfold deallocateMemForFunction
  cases hc : lookupCode σ.emittedFunctions fid with
  | some c => simpa using lookupCode_erase_self σ.emittedFunctions fid
  | none => simpa using hc

/-- `deallocateMemForFunction` touches only the emitted-functions map. -/
theorem deallocate_frame (σ : EmitterState) (fid : Nat) :
    (deallocateMemForFunction σ fid).bufferBegin = σ.bufferBegin ∧
    (deallocateMemForFunction σ fid).bufferEnd = σ.bufferEnd ∧
    (deallocateMemForFunction σ fid).labelLocations = σ.labelLocations ∧
    (deallocateMemForFunction σ fid).sizeEstimate = σ.sizeEstimate ∧
    (deallocateMemForFunction σ fid).nextAlloc = σ.nextAlloc := by
  unfold deallocateMemForFunction
  cases hc : lookupCode σ.emittedFunctions fid <;> simp

/-- `retryWithMoreMemory` doubles the estimate to twice the current
buffer's size, erases the function's record, and leaves the labels. -/
theorem retry_frame (σ : EmitterState) (fid : Nat) :
    (retryWithMoreMemory σ fid).sizeEstimate = 2 * (σ.bufferEnd - σ.bufferBegin) ∧
    lookupCode (retryWithMoreMemory σ fid).emittedFunctions fid = none ∧
    (retryWithMoreMemory σ fid).labelLocations = σ.labelLocations := by
  unfold retryWithMoreMemory
  refine ⟨?_, ?_, ?_⟩
  · have h := deallocate_frame { σ with constPoolAddresses := [] } fid
    simp [h.1, h.2.1]
  · simpa using lookupCode_deallocate_self { σ with constPoolAddresses := [] } fid
  · have h := deallocate_frame { σ with constPoolAddresses := [] } fid
    simpa using h.2.2.1

/-- The `emitAlignment` step only moves the cursor. -/
theorem emitAlignment_em (σ : EmitterState) (a : Nat) :
    (emitAlignment σ a).emittedFunctions = σ.emittedFunctions := rfl

/-- The pre-constant-pool stage of `startFunction` opens a buffer at the
next malloc address whose size is the pending estimate, or 4096 by
default, and leaves the label table alone. -/
theorem startFunctionPreCP_fields (σ : EmitterState) (F : MachineFunctionData) :
    (startFunctionPreCP σ F).bufferBegin = σ.nextAlloc ∧
    (startFunctionPreCP σ F).bufferEnd =
      σ.nextAlloc + (if σ.sizeEstimate = 0 then 4096 else σ.sizeEstimate) ∧
    (startFunctionPreCP σ F).labelLocations = σ.labelLocations := by
  have hsz : (if (if σ.sizeEstimate > 0 then σ.sizeEstimate else 0) = 0 then 0x1000
      else (if σ.sizeEstimate > 0 then σ.sizeEstimate else 0)) =
      (if σ.sizeEstimate = 0 then 4096 else σ.sizeEstimate) := by
    cases hse : σ.sizeEstimate with
    | zero => simp
    | succ n => simp
  unfold startFunctionPreCP startFunctionBody
  dsimp only [updateCode, emitAlignment]
  refine ⟨(ensureCode_frame _ _).1, ?_, (ensureCode_frame _ _).2.2.2.1⟩
  rw [(ensureCode_frame _ _).2.1]
  dsimp only
  rw [hsz]

/-- Registering a fresh function record and pointing it at the buffer
leaves it with an empty relocation list. -/
theorem lookup_after_register (σ₂ : EmitterState) (fid : Nat) (b : Nat)
    (h : lookupCode σ₂.emittedFunctions fid = none) :
    (lookupCode (updateCode { ensureCode σ₂ fid with currentFn := fid } fid
        (fun c => { c with functionBody := b })).emittedFunctions fid).map
      (fun c => c.relocations) = some [] := by
  rw [lookupCode_update_self]
  dsimp only
  rw [lookupCode_ensure_none σ₂ fid h]
  rfl

/-- After the pre-constant-pool stage, a function that had no record yet
has a fresh record with an empty relocation list. -/
theorem startFunctionPreCP_lookup_fresh (σ : EmitterState) (F : MachineFunctionData)
    (h : lookupCode σ.emittedFunctions F.fnId = none) :
    (lookupCode (startFunctionPreCP σ F).emittedFunctions F.fnId).map
      (fun c => c.relocations) = some [] := by
  unfold startFunctionPreCP
  rw [emitAlignment_em]
  exact lookup_after_register _ F.fnId _ h

/-- A successful `startFunction` splits into its two stages. -/
theorem startFunction_ok_parts (σ : EmitterState) (F : MachineFunctionData)
    (σ1 : EmitterState) (h : startFunction σ F = .ok σ1) :
    ∃ σ₇, emitConstantPool (startFunctionPreCP σ F) F.constants F.cpAlignment = .ok σ₇ ∧
      σ1 = startFunctionPostCP σ₇ F := by
  unfold startFunction at h
  split at h
  · exact Except.noConfusion h
  · cases h
    exact ⟨_, by assumption, rfl⟩

/-- The post-constant-pool stage clears the block table, leaves labels
and buffer bounds (with an open buffer), and does not change any
function's recorded relocations. -/
theorem startFunctionPostCP_fields (σ₇ : EmitterState) (F : MachineFunctionData) :
    (startFunctionPostCP σ₇ F).mbbLocations = [] ∧
    (startFunctionPostCP σ₇ F).labelLocations = σ₇.labelLocations ∧
    (σ₇.bufferBegin ≠ 0 →
      (startFunctionPostCP σ₇ F).bufferBegin = σ₇.bufferBegin ∧
      (startFunctionPostCP σ₇ F).bufferEnd = σ₇.bufferEnd) ∧
    (lookupCode (startFunctionPostCP σ₇ F).emittedFunctions F.fnId).map
        (fun c => c.relocations) =
      (lookupCode σ₇.emittedFunctions F.fnId).map (fun c => c.relocations) := by
  unfold startFunctionPostCP
  cases hjt : F.jumpTableInfo with
  | none =>
    refine ⟨rfl, rfl, fun _ => ⟨rfl, rfl⟩, ?_⟩
    rw [lookupCode_update_self, emitAlignment_em]
    cases lookupCode σ₇.emittedFunctions F.fnId <;> rfl
  | some m =>
    obtain ⟨h1, h2, _, _, _, hbuf⟩ := initJumpTableInfo_frame σ₇ m
    refine ⟨rfl, ?_, fun hb => ?_, ?_⟩
    · exact h2
    · exact ⟨(hbuf hb).1, (hbuf hb).2⟩
    · rw [lookupCode_update_self, emitAlignment_em, h1]
      cases lookupCode σ₇.emittedFunctions F.fnId <;> rfl

/-- The overflow branch of `finishFunction` doubles the estimate to twice
the attempt's buffer size. -/
theorem finishFunction_retry_estimate (σ : EmitterState) (F : MachineFunctionData)
    (σr : EmitterState) (h : finishFunction σ F = .ok (true, σr)) :
    σr.sizeEstimate = 2 * (σ.bufferEnd - σ.bufferBegin) := by
  unfold finishFunction at h
  split at h
  · cases h
    exact (retry_frame σ F.fnId).1
  · dsimp only at h
    split at h
    · exact Except.noConfusion h
    · rename_i σ₁ heq
      split at h
      · cases h
        have hσ₁ : σ₁.bufferEnd = σ.bufferEnd ∧ σ₁.bufferBegin = σ.bufferBegin := by
          cases hjt : F.jumpTableInfo with
          | none =>
            rw [hjt] at heq
            cases heq
            exact ⟨rfl, rfl⟩
          | some m =>
            rw [hjt] at heq
            rw [emitJumpTableInfo_ok_eq σ m σ₁ heq]
            exact ⟨rfl, rfl⟩
        have := (retry_frame (updateCode σ₁ σ₁.currentFn
          (fun c => { c with size := σ₁.curBufferPtr - c.codeStart })) F.fnId).1
        rw [this]
        simp [updateCode, hσ₁.1, hσ₁.2]
      · simp at h

/-- The success branch of `finishFunction` resets the estimate to zero. -/
theorem finishFunction_success_estimate (σ : EmitterState) (F : MachineFunctionData)
    (σs : EmitterState) (h : finishFunction σ F = .ok (false, σs)) :
    σs.sizeEstimate = 0 := by
  unfold finishFunction at h
  split at h
  · simp at h
  · dsimp only at h
    split at h
    · exact Except.noConfusion h
    · split at h
      · simp at h
      · cases h
        rfl

/-- C6: with a nonzero malloc cursor, a successful `startFunction` opens
a buffer of exactly the pending estimate's size — 4096 by default when no
overflow estimate is pending; the overflow branch of `finishFunction`
sets the retry estimate to double the attempt's buffer size; and a
successful `finishFunction` resets the estimate to zero. -/
theorem claim6_buffer_sizing_policy :
    (∀ σ F σ1, σ.nextAlloc ≠ 0 → startFunction σ F = .ok σ1 →
      σ1.bufferEnd - σ1.bufferBegin = if σ.sizeEstimate = 0 then 4096 else σ.sizeEstimate) ∧
    (∀ σ F σr, finishFunction σ F = .ok (true, σr) →
      σr.sizeEstimate = 2 * (σ.bufferEnd - σ.bufferBegin)) ∧
    (∀ σ F σs, finishFunction σ F = .ok (false, σs) → σs.sizeEstimate = 0) := by
  refine ⟨?_, finishFunction_retry_estimate, finishFunction_success_estimate⟩
  intro σ F σ1 hna h
  obtain ⟨σ₇, hcp, rfl⟩ := startFunction_ok_parts σ F σ1 h
  obtain ⟨hpb, hpe, _⟩ := startFunctionPreCP_fields σ F
  have hopen : (startFunctionPreCP σ F).bufferBegin ≠ 0 := by rw [hpb]; exact hna
  obtain ⟨_, _, _, _, _, _, hbuf⟩ :=
    emitConstantPool_ok_frame (startFunctionPreCP σ F) F.constants F.cpAlignment σ₇ hcp
  have h7 : σ₇.bufferBegin ≠ 0 := by rw [(hbuf hopen).1]; exact hopen
  obtain ⟨_, _, hpost, _⟩ := startFunctionPostCP_fields σ₇ F
  rw [(hpost h7).1, (hpost h7).2, (hbuf hopen).1, (hbuf hopen).2, hpb, hpe]
  omega

/-- Witness for C6: the first attempt of `fnCP` opens 4096 bytes, its
overflow retry doubles to 8192, and the successful finish resets. -/
theorem claim6_witness :
    c1afterStart.bufferEnd - c1afterStart.bufferBegin = 4096 ∧
    c6retryState.sizeEstimate = 2 * (c6ov.bufferEnd - c6ov.bufferBegin) ∧
    c1final.sizeEstimate = 0 :=
  ⟨claim6_buffer_sizing_policy.1 initialState fnCP c1afterStart (by decide) rfl,
   claim6_buffer_sizing_policy.2.1 c6ov fnCP c6retryState rfl,
   claim6_buffer_sizing_policy.2.2 c1afterEmit fnCP c1final rfl⟩

/-- C7 amended: after a discarded (overflowed) attempt is dropped by
`retryWithMoreMemory` and the function is restarted, the restarted state
has an empty block-location table and an empty relocation list for the
function, but the label-location table survives unchanged from the
discarded attempt (it is never cleared). -/
theorem claim7_blocks_relocations_cleared_labels_survive
    (σ : EmitterState) (F : MachineFunctionData) (σ1 : EmitterState)
    (h : startFunction (retryWithMoreMemory σ F.fnId) F = .ok σ1) :
    σ1.mbbLocations = [] ∧
    (lookupCode σ1.emittedFunctions F.fnId).map (fun c => c.relocations) = some [] ∧
    σ1.labelLocations = σ.labelLocations := by
  obtain ⟨σ₇, hcp, rfl⟩ := startFunction_ok_parts _ _ _ h
  obtain ⟨hr1, hr2, hr3⟩ := retry_frame σ F.fnId
  obtain ⟨hmbb, hlab, _, hrel⟩ := startFunctionPostCP_fields σ₇ F
  obtain ⟨hemF, hlabF, _, _, _, _, _⟩ :=
    emitConstantPool_ok_frame (startFunctionPreCP (retryWithMoreMemory σ F.fnId) F)
      F.constants F.cpAlignment σ₇ hcp
  refine ⟨hmbb, ?_, ?_⟩
  · rw [hrel, hemF]
    exact startFunctionPreCP_lookup_fresh (retryWithMoreMemory σ F.fnId) F hr2
  · rw [hlab, hlabF, (startFunctionPreCP_fields (retryWithMoreMemory σ F.fnId) F).2.2, hr3]

/-- Witness for the amended C7 at the overflowed run of `fnPlain1`. -/
theorem claim7_amended_witness :
    c7restart.mbbLocations = [] ∧
    (lookupCode c7restart.emittedFunctions 1).map (fun c => c.relocations) = some [] ∧
    c7restart.labelLocations = c7s3.labelLocations :=
  claim7_blocks_relocations_cleared_labels_survive c7s3 fnPlain1 c7restart rfl

/-- C9: for a non-custom, non-inline, nonempty jump-table list with room
in the open buffer, `initJumpTableInfo` reserves exactly (sum of the
MBB-list lengths) × entry size bytes — before any block address is known
(it never consults the block table) — placing the table base at the
aligned cursor; and `getJumpTableEntryAddress` returns that base plus
(sum of the entry counts of all preceding tables) × entry size. -/
theorem claim9_jump_table_reservation_and_lookup
    (σ : EmitterState) (mjti : MachineJumpTableInfo) (idx : Nat)
    (hcust : σ.hasCustomJumpTables = false)
    (hkind : mjti.entryKind ≠ .inlined)
    (hne : mjti.jumpTables ≠ [])
    (hb : σ.bufferBegin ≠ 0)
    (hal : getEntryAlignment σ.ptrSize mjti.entryKind ≠ 0)
    (hroom : roundUpToAlignment σ.curBufferPtr (getEntryAlignment σ.ptrSize mjti.entryKind)
        + jtNumEntries mjti.jumpTables * getEntrySize σ.ptrSize mjti.entryKind < σ.bufferEnd)
    (hidx : idx < mjti.jumpTables.length) :
    (initJumpTableInfo σ mjti).curBufferPtr =
      roundUpToAlignment σ.curBufferPtr (getEntryAlignment σ.ptrSize mjti.entryKind)
        + jtNumEntries mjti.jumpTables * getEntrySize σ.ptrSize mjti.entryKind ∧
    (initJumpTableInfo σ mjti).jumpTableBase =
      roundUpToAlignment σ.curBufferPtr (getEntryAlignment σ.ptrSize mjti.entryKind) ∧
    getJumpTableEntryAddress (initJumpTableInfo σ mjti) idx =
      some (roundUpToAlignment σ.curBufferPtr (getEntryAlignment σ.ptrSize mjti.entryKind)
        + jtNumEntries (mjti.jumpTables.take idx) * getEntrySize σ.ptrSize mjti.entryKind) := by
  have hie : ¬(mjti.jumpTables.isEmpty = true) := by
    simpa [List.isEmpty_iff] using hne
  have hmin : min (roundUpToAlignment σ.curBufferPtr
      (getEntryAlignment σ.ptrSize mjti.entryKind)) σ.bufferEnd =
      roundUpToAlignment σ.curBufferPtr (getEntryAlignment σ.ptrSize mjti.entryKind) :=
    Nat.min_eq_left (le_of_lt (lt_of_le_of_lt (Nat.le_add_right _ _) hroom))
  unfold initJumpTableInfo
  rw [if_neg (by simp [hcust]), if_neg hkind, if_neg hie]
  dsimp only
  unfold allocateSpace
  rw [if_pos (show ({ σ with jumpTable := some mjti } : EmitterState).bufferBegin ≠ 0 from hb)]
  unfold emitAlignment
  rw [if_neg hal]
  dsimp only
  rw [hmin, if_neg (Nat.not_le.mpr hroom)]
  dsimp only
  refine ⟨rfl, rfl, ?_⟩
  unfold getJumpTableEntryAddress
  dsimp only
  rw [if_pos hidx]

/-- Witness for C9: two tables of 3 and 2 pointer-sized entries reserve
40 bytes at 0x300000, and table 1 sits at 0x300000 + 3 × 8. -/
theorem claim9_witness :
    (initJumpTableInfo c9state c9mjti).curBufferPtr = 0x300028 ∧
    (initJumpTableInfo c9state c9mjti).jumpTableBase = 0x300000 ∧
    getJumpTableEntryAddress (initJumpTableInfo c9state c9mjti) 1 = some 0x300018 := by
  obtain ⟨h1, h2, h3⟩ := claim9_jump_table_reservation_and_lookup c9state c9mjti 1
    rfl (by decide) (by decide) (by decide) (by decide) (by decide) (by decide)
  exact ⟨h1, h2, h3⟩

end Shade
